import Mathlib

/-!
Verification of the Olist e-commerce analytics pipeline.

The repository holds two implementations of the same pipeline:
`charts.py` (the defensive one: guarded loader, optional payments,
deriver skip logic) and `olist_strategy_project.py` (an unguarded
variant).  Both are embedded below, in namespaces `charts` and
`olist` respectively.  Shared data model and helpers come first.

Modelling conventions:
- a pandas DataFrame is a list of typed row structures; the loaded
  `datasets` dict is a structure of `Option` tables (absent = missing);
- timestamps are abstracted to their calendar month index
  (year * 12 + month), the only granularity the pipeline uses; the
  `Ts` type distinguishes a raw CSV cell from a coerced datetime cell,
  and an unparsable cell carries `none`;
- currency amounts are `Rat`;
- a raised Python exception is `Except.error`;
- in-place mutation of a table inside the `datasets` dict is made
  observable by returning the post-call `Datasets` value alongside the
  result (`build_fact` in both namespaces returns the pair).
-/

/-- A timestamp cell: `raw v` is the unparsed CSV string whose parse
result would be `v` (`none` when unparsable), `dt v` is the coerced
datetime (`none` = NaT).  `v` is the month index of the timestamp. -/
inductive Ts where
  | raw (v : Option Nat)
  | dt (v : Option Nat)
deriving DecidableEq

/-- Embeds `pd.to_datetime(col, errors="coerce")`: unparsable cells
become NaT. -/
def Ts.coerce : Ts → Ts
  | .raw v => .dt v
  | .dt v => .dt v

/-- Month extraction, as in `.dt.to_period("M").dt.to_timestamp()`. -/
def Ts.monthVal : Ts → Option Nat
  | .raw v => v
  | .dt v => v

structure OrderRow where
  order_id : String
  customer_id : String
  order_purchase_timestamp : Ts
deriving DecidableEq

/-- The orders DataFrame: its rows plus the derived `month` column,
which is absent (`none`) until some code adds it. -/
structure OrdersTable where
  rows : List OrderRow
  monthCol : Option (List (Option Nat))
deriving DecidableEq

structure PaymentRow where
  order_id : String
  payment_type : String
  payment_value : Rat
deriving DecidableEq

structure CustomerRow where
  customer_id : String
  customer_zip : String
deriving DecidableEq

structure ItemRow where
  order_id : String
  product_id : String
deriving DecidableEq

structure ProductRow where
  product_id : String
  product_category_name : Option String
deriving DecidableEq

structure ReviewRow where
  order_id : String
  review_score : String
deriving DecidableEq

structure SellerRow where
  seller_id : String
deriving DecidableEq

structure GeoRow where
  geolocation_zip : String
  geolocation_state : String
deriving DecidableEq

/-- The `datasets` dict returned by `load_datasets`: one optional table
per logical name. -/
structure Datasets where
  orders : Option OrdersTable
  customers : Option (List CustomerRow)
  items : Option (List ItemRow)
  products : Option (List ProductRow)
  payments : Option (List PaymentRow)
  reviews : Option (List ReviewRow)
  sellers : Option (List SellerRow)
  geolocation : Option (List GeoRow)
deriving DecidableEq

/-- A CSV file on disk: absent, present but failing to parse, or
present and parsing to the given rows. -/
inductive CsvFile (α : Type) where
  | absent
  | malformed
  | parsed (rows : α)
deriving DecidableEq

/-- The input directory holding the fixed-named CSV files. -/
structure SourceDir where
  orders : CsvFile (List OrderRow)
  customers : CsvFile (List CustomerRow)
  items : CsvFile (List ItemRow)
  products : CsvFile (List ProductRow)
  payments : CsvFile (List PaymentRow)
  reviews : CsvFile (List ReviewRow)
  sellers : CsvFile (List SellerRow)
  geolocation : CsvFile (List GeoRow)
deriving DecidableEq

/-- Whether a pipeline step that may raise terminates the run (the
exception escapes or is converted to `sys.exit(1)`). -/
def isFatal {α : Type} : Except String α → Bool
  | .error _ => true
  | .ok _ => false

/-- One row of the fact table: the original order columns (timestamp
now coerced), plus the derived `month`, the merged `payment_value`
(null when the order had no payments) and `revenue`. -/
structure FactRow where
  order_id : String
  customer_id : String
  order_purchase_timestamp : Ts
  month : Option Nat
  payment_value : Option Rat
  revenue : Rat
deriving DecidableEq

/-- Embeds the payments aggregation
`payments.groupby("order_id", as_index=False).agg(payment_value="sum")`:
one row per distinct order id, carrying the summed payment value. -/
def groupby_sum (ps : List PaymentRow) : List (String × Rat) :=
  ((ps.map (fun p => p.order_id)).dedup).map
    (fun k => (k, ((ps.filter (fun p => p.order_id = k)).map (fun p => p.payment_value)).sum))

/-- One output row of the left merge: `pv` is the matched aggregated
payment value (none when unmatched); `revenue` is `payment_value`
with null filled by 0.0 (`fillna`). -/
def merged_row (om : OrderRow × Option Nat) (pv : Option Rat) : FactRow :=
  ⟨om.1.order_id, om.1.customer_id, om.1.order_purchase_timestamp, om.2, pv, pv.getD 0⟩

/-- Embeds `orders.merge(pay, on="order_id", how="left")` followed by
the fillna assignment of the `revenue` column.  Each order row is
replicated once per matching `pay` row, or kept once with a null
payment value when nothing matches. -/
def merge_left_pay : List (OrderRow × Option Nat) → List (String × Rat) → List FactRow
  | [], _ => []
  | om :: rest, pay =>
    (match pay.filter (fun p => p.1 = om.1.order_id) with
     | [] => [merged_row om none]
     | m :: ms => (m :: ms).map (fun p => merged_row om (some p.2))) ++
    merge_left_pay rest pay

/-- Embeds `series.value_counts()`: occurrence counts of each distinct
value, sorted by descending count. -/
def value_counts (l : List String) : List (String × Nat) :=
  List.insertionSort (fun a b => b.2 ≤ a.2)
    ((l.dedup).map (fun k => (k, l.count k)))

instance : DecidableRel (fun (a b : String × Nat) => b.2 ≤ a.2) :=
  fun a b => inferInstanceAs (Decidable (b.2 ≤ a.2))

/-- Minimum of a list of month indices (`series.min()`); `none` on an
empty list. -/
def listMin : List Nat → Option Nat
  | [] => none
  | x :: xs =>
    some (match listMin xs with
          | none => x
          | some m => min x m)

namespace charts

/-- One iteration of the loader loop of `charts.load_datasets`: a
missing file is skipped, a file that fails to parse is caught and
logged; in both cases the dataset is left out of the mapping. -/
def loadOne {α : Type} : CsvFile α → Option α
  | .parsed t => some t
  | .absent => none
  | .malformed => none

/-- The charts loader: loads the eight fixed-named CSV files,
tolerating missing and malformed files. -/
def load_datasets (src : SourceDir) : Datasets :=
  { orders := (loadOne src.orders).map (fun rs => ⟨rs, none⟩)
    customers := loadOne src.customers
    items := loadOne src.items
    products := loadOne src.products
    payments := loadOne src.payments
    reviews := loadOne src.reviews
    sellers := loadOne src.sellers
    geolocation := loadOne src.geolocation }

/-- The charts fact builder.  Raises when orders are missing; copies
the orders table before touching it (so the returned post-call
`Datasets` is the input unchanged); coerces the purchase timestamps,
derives the month column, aggregates the optional payments and
left-joins them. -/
def build_fact (ds : Datasets) : Except String (Datasets × List FactRow) :=
  match ds.orders with
  | none => .error "Orders dataset required to build fact table."
  | some ot =>
    let rows := ot.rows.map
      (fun r => { r with order_purchase_timestamp := r.order_purchase_timestamp.coerce })
    let withMonth : List (OrderRow × Option Nat) :=
      rows.map (fun r => (r, r.order_purchase_timestamp.monthVal))
    let payments := ds.payments.getD []
    let pay := if payments.isEmpty then [] else groupby_sum payments
    .ok (ds, merge_left_pay withMonth pay)

/-- Helper of `charts.revenue_trends`: tail of `pct_change` over a
month-indexed series, given the previous value. -/
def growAux (prev : Rat) : List (Nat × Rat) → List (Nat × Rat)
  | [] => []
  | (m, v) :: rest => (m, (v - prev) / prev * 100) :: growAux v rest

/-- Embeds `rev.pct_change().fillna(0) * 100`: month-over-month
percent change, first period defined as 0. -/
def growth_pct : List (Nat × Rat) → List (Nat × Rat)
  | [] => []
  | (m, v) :: rest => (m, 0) :: growAux v rest

/-- The data logic of `charts.revenue_trends`: drops null months,
groups by month (sorted) summing revenue and counting distinct
orders, and derives the growth series.  Returns (rev, orders,
growth). -/
def revenue_trends (fact : List FactRow) :
    List (Nat × Rat) × List (Nat × Nat) × List (Nat × Rat) :=
  let df := fact.filter (fun r => r.month.isSome)
  let months := List.insertionSort (fun a b => a ≤ b) ((df.filterMap (fun r => r.month)).dedup)
  let rev := months.map
    (fun m => (m, ((df.filter (fun r => r.month = some m)).map (fun r => r.revenue)).sum))
  let orders := months.map
    (fun m => (m, (((df.filter (fun r => r.month = some m)).map (fun r => r.order_id)).dedup).length))
  (rev, orders, growth_pct rev)

/-- The charts payment-mix deriver: skips (returns None) when the
payments dataset is absent, otherwise the top 8 payment types by
frequency.  (In the typed model the `payment_type` column is always
present, so only dataset absence triggers the skip.) -/
def payment_distribution (ds : Datasets) : Option (List (String × Nat)) :=
  match ds.payments with
  | none => none
  | some ps => some ((value_counts (ps.map (fun p => p.payment_type))).take 8)

/-- Step 1 of `charts.cohort_retention`: keep (customer_id, month)
for rows with a non-null month (`dropna`; `customer_id` is non-null
by typing). -/
def cohort_customers (fact : List FactRow) : List (String × Nat) :=
  fact.filterMap (fun r => r.month.map (fun m => (r.customer_id, m)))

/-- Months in which a given customer placed orders. -/
def monthsOf (cs : List (String × Nat)) (cid : String) : List Nat :=
  (cs.filter (fun q => q.1 = cid)).map (fun q => q.2)

/-- Step 2 of `charts.cohort_retention`: join each kept row with its
customer cohort month (the minimum month of that customer) and the
cohort index (signed calendar-month difference).  Entries are
(customer_id, cohort_month, cohort_index). -/
def cohort_recs (fact : List FactRow) : List (String × Nat × Int) :=
  let cs := cohort_customers fact
  cs.filterMap (fun p =>
    (listMin (monthsOf cs p.1)).map
      (fun cm => (p.1, cm, (p.2 : Int) - (cm : Int))))

/-- Distinct cohort months, sorted: the pivot row labels. -/
def cohort_months (fact : List FactRow) : List Nat :=
  List.insertionSort (fun a b => a ≤ b) (((cohort_recs fact).map (fun r => r.2.1)).dedup)

/-- Distinct cohort indices, sorted: the pivot column labels. -/
def cohort_columns (fact : List FactRow) : List Int :=
  List.insertionSort (fun a b => a ≤ b) (((cohort_recs fact).map (fun r => r.2.2)).dedup)

/-- One cell of the pivot: distinct customers of cohort `cm` active at
cohort index `i` (0 for label pairs never observed, as `fillna(0)`). -/
def cohort_entry (recs : List (String × Nat × Int)) (cm : Nat) (i : Int) : Nat :=
  (((recs.filter (fun r => r.2.1 = cm ∧ r.2.2 = i)).map (fun r => r.1)).dedup).length

/-- The charts cohort-retention deriver: pivot to (cohort month ×
cohort index) distinct-customer counts, then divide each row by its
entry in the first pivot column (`pivot.iloc[:, 0]`) times 100.  When
no row survives the dropna the pivot has no columns and `iloc[:, 0]`
raises IndexError, modelled as the error branch. -/
def cohort_retention (fact : List FactRow) : Except String (List (Nat × List (Int × Rat))) :=
  match cohort_columns fact with
  | [] => .error "IndexError: single positional indexer is out-of-bounds"
  | i0 :: rest =>
    .ok ((cohort_months fact).map (fun cm =>
      (cm, (i0 :: rest).map (fun i =>
        (i, ((cohort_entry (cohort_recs fact) cm i : Rat) /
             (cohort_entry (cohort_recs fact) cm i0 : Rat)) * 100)))))

end charts

namespace olist

/-- One iteration of the loader loop of the olist_strategy_project
loader: a missing file is only logged, but `pd.read_csv` is not
guarded, so a parse failure propagates. -/
def loadOne {α : Type} : CsvFile α → Except String (Option α)
  | .absent => .ok none
  | .malformed => .error "pandas.errors.ParserError"
  | .parsed t => .ok (some t)

/-- The olist_strategy_project loader: loads the seven fixed file
names (no geolocation entry in its files dict). -/
def load_datasets (src : SourceDir) : Except String Datasets := do
  let orders ← loadOne src.orders
  let customers ← loadOne src.customers
  let items ← loadOne src.items
  let products ← loadOne src.products
  let payments ← loadOne src.payments
  let reviews ← loadOne src.reviews
  let sellers ← loadOne src.sellers
  return { orders := orders.map (fun rs => ⟨rs, none⟩)
           customers := customers
           items := items
           products := products
           payments := payments
           reviews := reviews
           sellers := sellers
           geolocation := none }

/-- Embeds `pd.to_datetime` without `errors="coerce"`: raises on an
unparsable cell. -/
def pd_to_datetime : Ts → Except String Ts
  | .raw none => .error "ValueError: could not parse timestamp"
  | .raw (some v) => .ok (.dt (some v))
  | .dt v => .ok (.dt v)

/-- Column-wise `pd.to_datetime` over the purchase timestamps,
fail-fast on the first unparsable cell. -/
def to_datetime_col : List OrderRow → Except String (List OrderRow)
  | [] => .ok []
  | r :: rs =>
    match pd_to_datetime r.order_purchase_timestamp with
    | .error e => .error e
    | .ok t =>
      match to_datetime_col rs with
      | .error e => .error e
      | .ok rs2 => .ok ({ r with order_purchase_timestamp := t } :: rs2)

/-- The olist_strategy_project fact builder.  Looks up
`datasets["orders"]` and `datasets["payments"]` unconditionally
(KeyError when either is absent), mutates the orders table in place
(timestamp coercion and the new `month` column land in the
`datasets` dict: the post-call `Datasets` returned in the pair
reflects that), aggregates payments and left-joins them. -/
def build_fact (ds : Datasets) : Except String (Datasets × List FactRow) :=
  match ds.orders with
  | none => .error "KeyError: orders"
  | some ot =>
    match ds.payments with
    | none => .error "KeyError: payments"
    | some payments =>
      match to_datetime_col ot.rows with
      | .error e => .error e
      | .ok rows =>
        let monthColVals := rows.map (fun r => r.order_purchase_timestamp.monthVal)
        let ds2 := { ds with orders := some ⟨rows, some monthColVals⟩ }
        let withMonth : List (OrderRow × Option Nat) :=
          rows.map (fun r => (r, r.order_purchase_timestamp.monthVal))
        let pay := groupby_sum payments
        .ok (ds2, merge_left_pay withMonth pay)

/-- The olist_strategy_project payment-mix deriver: accesses
`datasets["payments"]` unconditionally (KeyError when absent), then
takes the top 5 payment types by frequency. -/
def payment_distribution (ds : Datasets) : Except String (List (String × Nat)) :=
  match ds.payments with
  | none => .error "KeyError: payments"
  | some ps => .ok ((value_counts (ps.map (fun p => p.payment_type))).take 5)

end olist

/-- The charts `main` catches exceptions from `build_fact` and
converts them to `sys.exit(1)`; every deriver call is wrapped in
try/except that only logs.  So the run is fatal exactly when
`build_fact` raises. -/
def charts.pipeline_fatal (ds : Datasets) : Bool :=
  isFatal (charts.build_fact ds)

/-- The olist_strategy_project `run_pipeline` calls `build_fact`
with no handler: any exception it raises terminates the run. -/
def olist.pipeline_fatal (ds : Datasets) : Bool :=
  isFatal (olist.build_fact ds)

/-! ## Concrete inputs used by witnesses and counterexamples -/

/-- Concrete one-order, one-payment orders table. -/
def otW1 : OrdersTable :=
  ⟨[⟨"a", "c", Ts.raw (some 24252)⟩], none⟩

def dsW1 : Datasets :=
  ⟨some otW1, none, none, none, some [⟨"a", "credit", 10⟩], none, none, none⟩

/-- Concrete datasets: Orders present (empty table), Payments absent. -/
def dsC2 : Datasets :=
  ⟨some ⟨[], none⟩, none, none, none, none, none, none, none⟩

def otC3 : OrdersTable :=
  ⟨[⟨"b", "d", Ts.raw (some 1)⟩], none⟩

def dsC3 : Datasets :=
  ⟨some otC3, none, none, none, none, none, none, none⟩

def factW4 : List FactRow :=
  [⟨"e", "f", Ts.dt (some 2), some 2, some 7, 7⟩]

def dsW4 : Datasets :=
  ⟨some ⟨[⟨"e", "f", Ts.raw (some 2)⟩], none⟩, none, none, none,
   some [⟨"e", "card", 7⟩], none, none, none⟩

/-- The scenario input: two orders in months 2021-01 and 2021-02
(month index year * 12 + month0: 24252 and 24253), order o1 paid 100,
order o2 paid 50 and 25 (split payment). -/
def otC5 : OrdersTable :=
  ⟨[⟨"o1", "c1", Ts.raw (some 24252)⟩, ⟨"o2", "c2", Ts.raw (some 24253)⟩], none⟩

def dsC5 : Datasets :=
  ⟨some otC5, none, none, none,
   some [⟨"o1", "credit_card", 100⟩, ⟨"o2", "credit_card", 50⟩, ⟨"o2", "voucher", 25⟩],
   none, none, none⟩

def factC5 : List FactRow :=
  [⟨"o1", "c1", Ts.dt (some 24252), some 24252, some 100, 100⟩,
   ⟨"o2", "c2", Ts.dt (some 24253), some 24253, some 75, 75⟩]

def psW7 : List PaymentRow :=
  [⟨"x", "credit_card", 5⟩, ⟨"y", "boleto", 6⟩, ⟨"z", "credit_card", 1⟩]

def dsW7 : Datasets :=
  ⟨none, none, none, none, some psW7, none, none, none⟩

/-- Concrete directory: the orders file exists but is malformed, the
rest are absent. -/
def srcC8 : SourceDir :=
  ⟨.malformed, .absent, .absent, .absent, .absent, .absent, .absent, .absent⟩

def srcW8 : SourceDir :=
  ⟨.absent, .absent, .absent, .absent, .malformed, .absent, .absent, .absent⟩

def otC9 : OrdersTable :=
  ⟨[⟨"g", "h", Ts.raw (some 3)⟩], none⟩

def dsC9 : Datasets :=
  ⟨some otC9, none, none, none, some [], none, none, none⟩

def dsW9 : Datasets :=
  ⟨some ⟨[⟨"i", "j", Ts.raw none⟩], none⟩, none, none, none, none, none, none, none⟩

def factW9 : List FactRow :=
  [⟨"i", "j", Ts.dt none, none, none, 0⟩]

def factW6 : List FactRow :=
  [⟨"k", "cw", Ts.dt (some 5), some 5, none, 0⟩]

def factW10 : List FactRow :=
  [⟨"m1", "cx", Ts.dt (some 9), some 9, none, 0⟩,
   ⟨"m2", "cx", Ts.dt (some 11), some 11, none, 0⟩]

/-! ## General lemmas about the embedded operations -/

lemma filter_key_len_le (pay : List (String × Rat)) (k : String)
    (h : (pay.map Prod.fst).Nodup) :
    (pay.filter (fun p => p.1 = k)).length ≤ 1 := by
  induction pay with
  | nil => simp
  | cons q qs ih =>
    simp only [List.map_cons, List.nodup_cons] at h
    by_cases hq : q.1 = k
    · have hnil : qs.filter (fun p => p.1 = k) = [] := by
        rw [List.filter_eq_nil_iff]
        intro p hp
        simp only [decide_eq_true_eq]
        intro hpk
        exact h.1 (List.mem_map.mpr ⟨p, hp, hpk.trans hq.symm⟩)
      simp [List.filter_cons, hq, hnil]
    · simpa [List.filter_cons, hq] using ih h.2

lemma groupby_sum_keys_nodup (ps : List PaymentRow) :
    ((groupby_sum ps).map Prod.fst).Nodup := by
  have h1 : (groupby_sum ps).map Prod.fst = (ps.map (fun p => p.order_id)).dedup := by
    unfold groupby_sum
    rw [List.map_map]
    exact List.map_id _
  rw [h1]
  exact List.nodup_dedup _

lemma merge_left_pay_length (orows : List (OrderRow × Option Nat)) (pay : List (String × Rat))
    (h : (pay.map Prod.fst).Nodup) :
    (merge_left_pay orows pay).length = orows.length := by
  induction orows with
  | nil => rfl
  | cons om rest ih =>
    cases hf : pay.filter (fun p => p.1 = om.1.order_id) with
    | nil => simp [merge_left_pay, hf, ih]
    | cons m ms =>
      have hms : ms = [] := by
        have hle := filter_key_len_le pay om.1.order_id h
        rw [hf] at hle
        simp only [List.length_cons] at hle
        exact List.length_eq_zero.mp (by omega)
      simp [merge_left_pay, hf, hms, ih]

lemma charts_build_fact_eq (ds : Datasets) (ot : OrdersTable) (h : ds.orders = some ot) :
    charts.build_fact ds = Except.ok (ds, merge_left_pay
      ((ot.rows.map (fun r =>
          { r with order_purchase_timestamp := r.order_purchase_timestamp.coerce })).map
        (fun r => (r, r.order_purchase_timestamp.monthVal)))
      (if (ds.payments.getD []).isEmpty then [] else groupby_sum (ds.payments.getD []))) := by
  unfold charts.build_fact
  rw [h]

lemma charts.build_fact_err (ds : Datasets) (h : ds.orders = none) :
    charts.build_fact ds = Except.error "Orders dataset required to build fact table." := by
  unfold charts.build_fact
  simp only [h]

lemma olist.build_fact_err_orders (ds : Datasets) (h : ds.orders = none) :
    olist.build_fact ds = Except.error "KeyError: orders" := by
  unfold olist.build_fact
  simp only [h]

lemma olist.build_fact_err_payments (ds : Datasets) (ot : OrdersTable)
    (h : ds.orders = some ot) (hp : ds.payments = none) :
    olist.build_fact ds = Except.error "KeyError: payments" := by
  unfold olist.build_fact
  simp only [h, hp]

lemma olist.build_fact_err_td (ds : Datasets) (ot : OrdersTable) (ps : List PaymentRow) (e : String)
    (h : ds.orders = some ot) (hp : ds.payments = some ps)
    (ht : olist.to_datetime_col ot.rows = Except.error e) :
    olist.build_fact ds = Except.error e := by
  unfold olist.build_fact
  simp only [h, hp, ht]

lemma olist_build_fact_eq (ds : Datasets) (ot : OrdersTable) (ps : List PaymentRow)
    (rows : List OrderRow)
    (h : ds.orders = some ot) (hp : ds.payments = some ps)
    (ht : olist.to_datetime_col ot.rows = Except.ok rows) :
    olist.build_fact ds = Except.ok
      ({ ds with
          orders := some ⟨rows, some (rows.map (fun r => r.order_purchase_timestamp.monthVal))⟩ },
       merge_left_pay (rows.map (fun r => (r, r.order_purchase_timestamp.monthVal)))
         (groupby_sum ps)) := by
  unfold olist.build_fact
  simp only [h, hp, ht]

lemma olist.to_datetime_col_length :
    ∀ (l l2 : List OrderRow), olist.to_datetime_col l = Except.ok l2 → l2.length = l.length := by
  intro l
  induction l with
  | nil =>
    intro l2 h
    simp only [olist.to_datetime_col, Except.ok.injEq] at h
    rw [← h]
  | cons r rs ih =>
    intro l2 h
    unfold olist.to_datetime_col at h
    cases h1 : olist.pd_to_datetime r.order_purchase_timestamp with
    | error e => rw [h1] at h; simp at h
    | ok t =>
      rw [h1] at h
      cases h2 : olist.to_datetime_col rs with
      | error e => rw [h2] at h; simp at h
      | ok rs2 =>
        rw [h2] at h
        simp only [Except.ok.injEq] at h
        rw [← h]
        simp [ih rs2 h2]

lemma ite_pay_keys_nodup (ps : List PaymentRow) (b : Bool) :
    (((if b then ([] : List (String × Rat)) else groupby_sum ps)).map Prod.fst).Nodup := by
  cases b with
  | true => simp
  | false => simpa using groupby_sum_keys_nodup ps

lemma merge_left_pay_nil_revenue (orows : List (OrderRow × Option Nat)) :
    ∀ r ∈ merge_left_pay orows [], r.revenue = 0 := by
  induction orows with
  | nil => intro r hr; simp [merge_left_pay] at hr
  | cons om rest ih =>
    intro r hr
    simp only [merge_left_pay, List.filter_nil] at hr
    rcases List.mem_append.mp hr with h1 | h2
    · rw [List.mem_singleton.mp h1]
      rfl
    · exact ih r h2

lemma merge_left_pay_revenue (orows : List (OrderRow × Option Nat)) (pay : List (String × Rat)) :
    ∀ r ∈ merge_left_pay orows pay, r.revenue = 0 ∨ ∃ p ∈ pay, r.revenue = p.2 := by
  induction orows with
  | nil => intro r hr; simp [merge_left_pay] at hr
  | cons om rest ih =>
    intro r hr
    simp only [merge_left_pay] at hr
    rcases List.mem_append.mp hr with h1 | h2
    · cases hf : pay.filter (fun p => p.1 = om.1.order_id) with
      | nil =>
        rw [hf] at h1
        left
        rw [List.mem_singleton.mp h1]
        rfl
      | cons m ms =>
        rw [hf] at h1
        right
        rcases List.mem_map.mp h1 with ⟨p, hpmem, rfl⟩
        exact ⟨p, List.mem_of_mem_filter (hf ▸ hpmem), rfl⟩
    · exact ih r h2

lemma groupby_sum_value_nonneg (ps : List PaymentRow)
    (hps : ∀ p ∈ ps, 0 ≤ p.payment_value) :
    ∀ q ∈ groupby_sum ps, 0 ≤ q.2 := by
  intro q hq
  unfold groupby_sum at hq
  rcases List.mem_map.mp hq with ⟨k, hk, rfl⟩
  apply List.sum_nonneg
  intro x hx
  rcases List.mem_map.mp hx with ⟨p, hpmem, rfl⟩
  exact hps p (List.mem_of_mem_filter hpmem)

lemma value_counts_sum (l : List String) :
    ((value_counts l).map (fun e => e.2)).sum = l.length := by
  unfold value_counts
  have hperm : List.Perm
      (List.insertionSort (fun a b => b.2 ≤ a.2) ((l.dedup).map (fun k => (k, l.count k))))
      ((l.dedup).map (fun k => (k, l.count k))) :=
    List.perm_insertionSort _ _
  rw [List.Perm.sum_eq (hperm.map (fun e => e.2))]
  rw [List.map_map]
  exact List.sum_map_count_dedup_eq_length l

lemma sum_take_le (n : Nat) (l : List Nat) : (l.take n).sum ≤ l.sum := by
  conv_rhs => rw [← List.take_append_drop n l]
  rw [List.sum_append]
  exact Nat.le_add_right _ _

lemma value_counts_take_bounds (n : Nat) (ps : List PaymentRow) :
    ((value_counts (ps.map (fun p => p.payment_type))).take n).length ≤ n ∧
    ((((value_counts (ps.map (fun p => p.payment_type))).take n)).map (fun e => e.2)).sum ≤
      ps.length := by
  constructor
  · rw [List.length_take]
    exact Nat.min_le_left _ _
  · rw [List.map_take]
    refine le_trans (sum_take_le n _) ?_
    rw [value_counts_sum]
    simp

lemma listMin_mem : ∀ (l : List Nat) (m : Nat), listMin l = some m → m ∈ l := by
  intro l
  induction l with
  | nil => intro m h; simp [listMin] at h
  | cons x xs ih =>
    intro m h
    simp only [listMin, Option.some.injEq] at h
    cases hxs : listMin xs with
    | none =>
      rw [hxs] at h
      simp only at h
      rw [← h]
      exact List.mem_cons_self _ _
    | some m2 =>
      rw [hxs] at h
      simp only at h
      rcases Nat.le_total x m2 with hle | hge
      · rw [min_eq_left hle] at h
        rw [← h]
        exact List.mem_cons_self _ _
      · rw [min_eq_right hge] at h
        rw [← h]
        exact List.mem_cons_of_mem _ (ih m2 hxs)

lemma listMin_le : ∀ (l : List Nat) (m : Nat), listMin l = some m → ∀ x ∈ l, m ≤ x := by
  intro l
  induction l with
  | nil => intro m h x hx; simp at hx
  | cons y ys ih =>
    intro m h x hx
    simp only [listMin, Option.some.injEq] at h
    cases hys : listMin ys with
    | none =>
      rw [hys] at h
      simp only at h
      cases ys with
      | nil =>
        rw [List.mem_singleton.mp hx, ← h]
      | cons z zs => simp [listMin] at hys
    | some m2 =>
      rw [hys] at h
      simp only at h
      rcases List.mem_cons.mp hx with rfl | hx2
      · rw [← h]
        exact min_le_left _ _
      · rw [← h]
        exact le_trans (min_le_right _ _) (ih m2 hys x hx2)

lemma listMin_isSome (l : List Nat) (h : l ≠ []) : ∃ m, listMin l = some m := by
  cases l with
  | nil => exact absurd rfl h
  | cons x xs => exact ⟨_, rfl⟩

lemma charts.mem_monthsOf_self (cs : List (String × Nat)) (p : String × Nat) (hp : p ∈ cs) :
    p.2 ∈ monthsOf cs p.1 := by
  unfold monthsOf
  exact List.mem_map.mpr ⟨p, List.mem_filter.mpr ⟨hp, by simp⟩, rfl⟩

lemma charts.monthsOf_mem_inv (cs : List (String × Nat)) (cid : String) (m : Nat)
    (h : m ∈ monthsOf cs cid) : ∃ q ∈ cs, q.1 = cid ∧ q.2 = m := by
  unfold monthsOf at h
  rcases List.mem_map.mp h with ⟨q, hq, rfl⟩
  rcases List.mem_filter.mp hq with ⟨hmem, hpred⟩
  exact ⟨q, hmem, by simpa using hpred, rfl⟩

lemma charts.cohort_recs_shape (fact : List FactRow) (r : String × Nat × Int)
    (hr : r ∈ cohort_recs fact) :
    ∃ p ∈ cohort_customers fact, p.1 = r.1 ∧
      listMin (monthsOf (cohort_customers fact) r.1) = some r.2.1 ∧
      r.2.2 = (p.2 : Int) - (r.2.1 : Int) := by
  unfold cohort_recs at hr
  rcases List.mem_filterMap.mp hr with ⟨p, hp, hf⟩
  rcases Option.map_eq_some'.mp hf with ⟨cm, hmin, rfl⟩
  exact ⟨p, hp, rfl, hmin, rfl⟩

lemma charts.cohort_recs_idx_nonneg (fact : List FactRow) :
    ∀ r ∈ cohort_recs fact, 0 ≤ r.2.2 := by
  intro r hr
  rcases cohort_recs_shape fact r hr with ⟨p, hp, hp1, hmin, hidx⟩
  have hmem : p.2 ∈ monthsOf (cohort_customers fact) r.1 := by
    rw [← hp1]
    exact mem_monthsOf_self _ p hp
  have hle := listMin_le _ _ hmin p.2 hmem
  rw [hidx]
  omega

lemma charts.cohort_recs_zero (fact : List FactRow) (r : String × Nat × Int)
    (hr : r ∈ cohort_recs fact) : (r.1, r.2.1, (0 : Int)) ∈ cohort_recs fact := by
  rcases cohort_recs_shape fact r hr with ⟨p, hp, hp1, hmin, hidx⟩
  have hcm : r.2.1 ∈ monthsOf (cohort_customers fact) r.1 := listMin_mem _ _ hmin
  rcases monthsOf_mem_inv _ _ _ hcm with ⟨q, hq, hq1, hq2⟩
  unfold cohort_recs
  apply List.mem_filterMap.mpr
  refine ⟨q, hq, ?_⟩
  rw [hq1, hmin]
  simp [hq2]

lemma charts.cohort_recs_ne_nil (fact : List FactRow)
    (h : ∃ r ∈ fact, r.month.isSome = true) : cohort_recs fact ≠ [] := by
  rcases h with ⟨fr, hfr, hm⟩
  rcases Option.isSome_iff_exists.mp hm with ⟨m, hm2⟩
  have hp : (fr.customer_id, m) ∈ cohort_customers fact := by
    unfold cohort_customers
    exact List.mem_filterMap.mpr ⟨fr, hfr, by rw [hm2]; rfl⟩
  have hmm : m ∈ monthsOf (cohort_customers fact) fr.customer_id :=
    mem_monthsOf_self _ _ hp
  rcases listMin_isSome _ (List.ne_nil_of_mem hmm) with ⟨cm, hcm⟩
  intro hnil
  have hin : ((fr.customer_id, cm, ((m : Int) - (cm : Int))) ∈ cohort_recs fact) := by
    unfold cohort_recs
    apply List.mem_filterMap.mpr
    refine ⟨(fr.customer_id, m), hp, ?_⟩
    show (listMin (monthsOf (cohort_customers fact) fr.customer_id)).map _ = _
    rw [hcm]
    rfl
  rw [hnil] at hin
  exact absurd hin (List.not_mem_nil _)

lemma sorted_head_le {x : Int} {l : List Int}
    (hs : List.Sorted (fun a b => a ≤ b) (x :: l)) :
    ∀ y ∈ x :: l, x ≤ y := by
  intro y hy
  rcases List.mem_cons.mp hy with rfl | hy2
  · exact le_refl _
  · exact (List.sorted_cons.mp hs).1 y hy2

lemma charts.cohort_columns_head (fact : List FactRow)
    (h : cohort_recs fact ≠ []) :
    ∃ rest, cohort_columns fact = 0 :: rest := by
  rcases List.exists_mem_of_ne_nil _ h with ⟨r, hr⟩
  have h0 : (0 : Int) ∈ ((cohort_recs fact).map (fun q => q.2.2)).dedup := by
    rw [List.mem_dedup]
    exact List.mem_map.mpr ⟨(r.1, r.2.1, 0), cohort_recs_zero fact r hr, rfl⟩
  have h0s : (0 : Int) ∈ cohort_columns fact := by
    unfold cohort_columns
    exact ((List.perm_insertionSort _ _).mem_iff).mpr h0
  have hsort : List.Sorted (fun a b => a ≤ b) (cohort_columns fact) := by
    unfold cohort_columns
    exact List.sorted_insertionSort _ _
  cases hc : cohort_columns fact with
  | nil =>
    rw [hc] at h0s
    exact absurd h0s (List.not_mem_nil _)
  | cons i0 rest =>
    refine ⟨rest, ?_⟩
    rw [hc] at h0s hsort
    have hle : i0 ≤ 0 := sorted_head_le hsort 0 h0s
    have hge : (0 : Int) ≤ i0 := by
      have hi0 : i0 ∈ cohort_columns fact := by
        rw [hc]
        exact List.mem_cons_self _ _
      unfold cohort_columns at hi0
      have h2 := ((List.perm_insertionSort _ _).mem_iff).mp hi0
      rw [List.mem_dedup] at h2
      rcases List.mem_map.mp h2 with ⟨r2, hr2, hr2e⟩
      rw [← hr2e]
      exact cohort_recs_idx_nonneg fact r2 hr2
    rw [le_antisymm hle hge]

lemma charts.cohort_entry_pos (fact : List FactRow) (r : String × Nat × Int)
    (hr : r ∈ cohort_recs fact) :
    0 < cohort_entry (cohort_recs fact) r.2.1 0 := by
  have hz := cohort_recs_zero fact r hr
  unfold cohort_entry
  have hmem : r.1 ∈ ((cohort_recs fact).filter
      (fun q => q.2.1 = r.2.1 ∧ q.2.2 = 0)).map (fun q => q.1) :=
    List.mem_map.mpr ⟨(r.1, r.2.1, 0), List.mem_filter.mpr ⟨hz, by simp⟩, rfl⟩
  rw [List.length_pos]
  exact List.ne_nil_of_mem (List.mem_dedup.mpr hmem)

lemma charts.cohort_months_mem_inv (fact : List FactRow) (cm : Nat)
    (h : cm ∈ cohort_months fact) : ∃ r ∈ cohort_recs fact, r.2.1 = cm := by
  unfold cohort_months at h
  have h2 := ((List.perm_insertionSort _ _).mem_iff).mp h
  rw [List.mem_dedup] at h2
  rcases List.mem_map.mp h2 with ⟨r, hr, hre⟩
  exact ⟨r, hr, hre⟩

/-! ## C1 -/

/-- C1: for every loaded datasets mapping containing an Orders table,
the fact table built by `build_fact` has exactly as many rows as the
Orders table: payments are aggregated to one row per order id before
the left join, so the join neither drops nor duplicates any order.
Stated for `charts.build_fact` (which always succeeds there) and for
`olist.build_fact` (whenever it returns a table). -/
theorem C1_fact_row_count (ds : Datasets) (ot : OrdersTable) (h : ds.orders = some ot) :
    (∃ fact, charts.build_fact ds = Except.ok (ds, fact) ∧ fact.length = ot.rows.length) ∧
    (∀ post fact, olist.build_fact ds = Except.ok (post, fact) → fact.length = ot.rows.length) := by
  constructor
  · refine ⟨_, charts_build_fact_eq ds ot h, ?_⟩
    rw [merge_left_pay_length]
    · simp
    · split
      · simp
      · exact groupby_sum_keys_nodup _
  · intro post fact hok
    cases hpay : ds.payments with
    | none =>
      rw [olist.build_fact_err_payments ds ot h hpay] at hok
      simp at hok
    | some ps =>
      cases htd : olist.to_datetime_col ot.rows with
      | error e =>
        rw [olist.build_fact_err_td ds ot ps e h hpay htd] at hok
        simp at hok
      | ok rows =>
        rw [olist_build_fact_eq ds ot ps rows h hpay htd] at hok
        simp only [Except.ok.injEq, Prod.mk.injEq] at hok
        rw [← hok.2]
        rw [merge_left_pay_length _ _ (groupby_sum_keys_nodup ps), List.length_map]
        exact olist.to_datetime_col_length ot.rows rows htd

/-- C1 witness: the theorem applied to the concrete one-order input. -/
theorem C1_fact_row_count_witness :
    ∃ fact, charts.build_fact dsW1 = Except.ok (dsW1, fact) ∧ fact.length = otW1.rows.length :=
  (C1_fact_row_count dsW1 otW1 rfl).1

/-! ## C2 -/

/-- C2 (amended): the charts pipeline terminates fatally exactly when
the Orders dataset is missing at fact-builder time; the
olist_strategy_project pipeline additionally terminates fatally
whenever the Payments dataset is missing, because its `build_fact`
looks up `datasets["payments"]` unconditionally and `run_pipeline`
installs no handler. -/
theorem C2_fatal_exactly_orders_missing :
    (∀ ds : Datasets, charts.pipeline_fatal ds = true ↔ ds.orders = none) ∧
    (∀ ds : Datasets, ds.payments = none → olist.pipeline_fatal ds = true) := by
  constructor
  · intro ds
    cases h : ds.orders with
    | none => simp [charts.pipeline_fatal, charts.build_fact_err ds h, isFatal, h]
    | some ot => simp [charts.pipeline_fatal, charts_build_fact_eq ds ot h, isFatal, h]
  · intro ds hp
    cases h : ds.orders with
    | none => simp [olist.pipeline_fatal, olist.build_fact_err_orders ds h, isFatal]
    | some ot => simp [olist.pipeline_fatal, olist.build_fact_err_payments ds ot h hp, isFatal]

/-- C2 counterexample: with Orders present and only Payments missing,
the olist_strategy_project pipeline terminates fatally, refuting the
claim that the pipeline is fatal exactly when Orders is missing and
that any other missing dataset is never process-terminating. -/
theorem C2_cex_payments_missing_is_fatal :
    olist.pipeline_fatal dsC2 = true ∧ dsC2.orders ≠ none := by
  decide

/-- C2 witness: the amended theorem applied at `dsC2`. -/
theorem C2_fatal_witness : dsC2.payments = none ∧ olist.pipeline_fatal dsC2 = true :=
  ⟨rfl, C2_fatal_exactly_orders_missing.2 dsC2 rfl⟩

/-! ## C3 -/

/-- C3 (amended): if the Payments dataset is entirely absent,
`charts.build_fact` still succeeds with every fact row carrying
revenue 0.0 and `charts.payment_distribution` returns the null/skip
result; the olist_strategy_project `build_fact`, by contrast, raises
(KeyError) in that situation. -/
theorem C3_missing_payments (ds : Datasets) (ot : OrdersTable)
    (hp : ds.payments = none) (ho : ds.orders = some ot) :
    (∃ fact, charts.build_fact ds = Except.ok (ds, fact) ∧ ∀ r ∈ fact, r.revenue = 0) ∧
    charts.payment_distribution ds = none ∧
    isFatal (olist.build_fact ds) = true := by
  refine ⟨⟨_, charts_build_fact_eq ds ot ho, ?_⟩, ?_, ?_⟩
  · rw [hp]
    simp only [Option.getD_none, List.isEmpty_nil, if_true]
    exact merge_left_pay_nil_revenue _
  · simp [charts.payment_distribution, hp]
  · rw [olist.build_fact_err_payments ds ot ho hp]
    rfl

/-- C3 counterexample: at a concrete input with the Payments dataset
absent, the `build_fact` of olist_strategy_project does not succeed
but raises, refuting the claim as stated for that cited symbol. -/
theorem C3_cex_olist_build_fact_raises :
    dsC3.payments = none ∧ isFatal (olist.build_fact dsC3) = true := by
  decide

/-- C3 witness: the amended theorem applied at `dsC3`. -/
theorem C3_missing_payments_witness :
    (∃ fact, charts.build_fact dsC3 = Except.ok (dsC3, fact) ∧ ∀ r ∈ fact, r.revenue = 0) ∧
    charts.payment_distribution dsC3 = none ∧
    isFatal (olist.build_fact dsC3) = true :=
  C3_missing_payments dsC3 otC3 rfl rfl

/-! ## C4 -/

/-- C4: under the precondition that every payment value in the
Payments table is non-negative, every fact row built by
`charts.build_fact` has revenue greater than or equal to 0 (a sum of
non-negative payments, or the 0.0 default). -/
theorem C4_revenue_nonneg (ds : Datasets) (post : Datasets) (fact : List FactRow)
    (hpay : ∀ p ∈ ds.payments.getD [], 0 ≤ p.payment_value)
    (hok : charts.build_fact ds = Except.ok (post, fact)) :
    ∀ r ∈ fact, 0 ≤ r.revenue := by
  cases ho : ds.orders with
  | none => rw [charts.build_fact_err ds ho] at hok; simp at hok
  | some ot =>
    rw [charts_build_fact_eq ds ot ho] at hok
    simp only [Except.ok.injEq, Prod.mk.injEq] at hok
    rw [← hok.2]
    intro r hr
    rcases merge_left_pay_revenue _ _ r hr with h0 | ⟨p, hpmem, hrev⟩
    · rw [h0]
    · rw [hrev]
      by_cases hc : (ds.payments.getD []).isEmpty
      · rw [if_pos hc] at hpmem
        simp at hpmem
      · rw [if_neg hc] at hpmem
        exact groupby_sum_value_nonneg _ hpay p hpmem

/-- C4 witness: the theorem applied at a concrete one-payment input. -/
theorem C4_revenue_nonneg_witness :
    (∀ p ∈ dsW4.payments.getD [], 0 ≤ p.payment_value) ∧ (∀ r ∈ factW4, 0 ≤ r.revenue) :=
  ⟨by decide, C4_revenue_nonneg dsW4 dsW4 factW4 (by decide)
    (by simp [charts.build_fact, dsW4, factW4, groupby_sum, merge_left_pay, merged_row,
          Ts.coerce, Ts.monthVal])⟩

/-! ## C5 -/

/-- C5: on the two-order split-payment scenario, `charts.build_fact`
yields revenues [100, 75], the revenue-trend series is
2021-01 maps to 100 and 2021-02 maps to 75, and the month-over-month
growth series is 2021-01 maps to 0 (first period) and 2021-02 maps to
-25.0 percent. -/
theorem C5_concrete_scenario :
    ∃ fact, charts.build_fact dsC5 = Except.ok (dsC5, fact) ∧
      fact.map (fun r => r.revenue) = [100, 75] ∧
      (charts.revenue_trends fact).1 = [(24252, 100), (24253, 75)] ∧
      (charts.revenue_trends fact).2.2 = [(24252, 0), (24253, -25)] := by
  have h1 : charts.build_fact dsC5 = Except.ok (dsC5, factC5) := by
    simp +decide [charts.build_fact, dsC5, otC5, factC5, groupby_sum, merge_left_pay,
      merged_row, Ts.coerce, Ts.monthVal, List.filter_cons,
      show (["o1", "o2", "o2"] : List String).dedup = ["o1", "o2"] from by decide]
    norm_num
  have h2 : charts.revenue_trends factC5 =
      ([(24252, 100), (24253, 75)], [(24252, 1), (24253, 1)], [(24252, 0), (24253, -25)]) := by
    simp +decide [charts.revenue_trends, factC5, charts.growth_pct, charts.growAux,
      List.insertionSort, List.orderedInsert, List.filter_cons,
      show ([24252, 24253] : List Nat).dedup = [24252, 24253] from by decide,
      show (["o1"] : List String).dedup = ["o1"] from by decide,
      show (["o2"] : List String).dedup = ["o2"] from by decide]
    norm_num
  refine ⟨factC5, h1, by norm_num [factC5], ?_, ?_⟩
  · rw [h2]
  · rw [h2]

/-! ## C6 -/

/-- C6: for every fact table (with its customer_id column) having at
least one row with a non-null month, `charts.cohort_retention`
succeeds, and in every cohort row of the retention matrix the value at
cohort index 0 is 100 percent (each cohort row is normalized by its
own index-0 distinct-customer count). -/
theorem C6_cohort_retention_index0 (fact : List FactRow)
    (h : ∃ r ∈ fact, r.month.isSome = true) :
    ∃ M, charts.cohort_retention fact = Except.ok M ∧
      ∀ row ∈ M, (((0 : Int), (100 : Rat)) ∈ row.2 ∧
        ∀ cell ∈ row.2, cell.1 = 0 → cell.2 = 100) := by
  have hne := charts.cohort_recs_ne_nil fact h
  rcases charts.cohort_columns_head fact hne with ⟨rest, hcols⟩
  refine ⟨(charts.cohort_months fact).map (fun cm =>
      (cm, ((0 : Int) :: rest).map (fun i =>
        (i, ((charts.cohort_entry (charts.cohort_recs fact) cm i : Rat) /
             (charts.cohort_entry (charts.cohort_recs fact) cm 0 : Rat)) * 100)))), ?_, ?_⟩
  · unfold charts.cohort_retention
    rw [hcols]
  · intro row hrow
    rcases List.mem_map.mp hrow with ⟨cm, hcm, rfl⟩
    have hpos : (0 : Rat) < (charts.cohort_entry (charts.cohort_recs fact) cm 0 : Rat) := by
      rcases charts.cohort_months_mem_inv fact cm hcm with ⟨r, hr, hre⟩
      have hp := charts.cohort_entry_pos fact r hr
      rw [hre] at hp
      exact_mod_cast hp
    have hval : ((charts.cohort_entry (charts.cohort_recs fact) cm 0 : Rat) /
        (charts.cohort_entry (charts.cohort_recs fact) cm 0 : Rat)) * 100 = 100 := by
      rw [div_self (ne_of_gt hpos), one_mul]
    constructor
    · exact List.mem_map.mpr ⟨0, List.mem_cons_self _ _, by rw [hval]⟩
    · intro cell hcell h0
      rcases List.mem_map.mp hcell with ⟨i, hi, rfl⟩
      have hieq : i = 0 := h0
      rw [hieq]
      exact hval

/-- C6 witness: the theorem applied at a concrete one-row fact
table. -/
theorem C6_cohort_retention_witness :
    ∃ M, charts.cohort_retention factW6 = Except.ok M ∧
      ∀ row ∈ M, (((0 : Int), (100 : Rat)) ∈ row.2 ∧
        ∀ cell ∈ row.2, cell.1 = 0 → cell.2 = 100) :=
  C6_cohort_retention_index0 factW6
    ⟨⟨"k", "cw", Ts.dt (some 5), some 5, none, 0⟩, List.mem_cons_self _ _, rfl⟩

/-! ## C7 -/

/-- C7: whenever the Payments dataset is present (hence has its
payment_type column), the payment-distribution result has at most 8
entries (top-N payment types by frequency) and the entry counts sum
to at most the number of payment rows.  Holds for
`charts.payment_distribution` (top 8) and for
`olist.payment_distribution` (top 5). -/
theorem C7_payment_distribution_bounds (ds : Datasets) (ps : List PaymentRow)
    (h : ds.payments = some ps) :
    (∃ res, charts.payment_distribution ds = some res ∧
        res.length ≤ 8 ∧ (res.map (fun e => e.2)).sum ≤ ps.length) ∧
    (∃ res, olist.payment_distribution ds = Except.ok res ∧
        res.length ≤ 8 ∧ (res.map (fun e => e.2)).sum ≤ ps.length) := by
  constructor
  · refine ⟨(value_counts (ps.map (fun p => p.payment_type))).take 8, ?_,
      (value_counts_take_bounds 8 ps).1, (value_counts_take_bounds 8 ps).2⟩
    simp [charts.payment_distribution, h]
  · refine ⟨(value_counts (ps.map (fun p => p.payment_type))).take 5, ?_,
      le_trans (value_counts_take_bounds 5 ps).1 (by norm_num),
      (value_counts_take_bounds 5 ps).2⟩
    simp [olist.payment_distribution, h]

/-- C7 witness: the theorem applied at a concrete 3-payment input. -/
theorem C7_payment_distribution_witness :
    ∃ res, charts.payment_distribution dsW7 = some res ∧
      res.length ≤ 8 ∧ (res.map (fun e => e.2)).sum ≤ psW7.length :=
  (C7_payment_distribution_bounds dsW7 psW7 rfl).1

/-! ## C8 -/

/-- C8 (amended): the charts loader catches a parse failure, logs it
and treats the dataset as absent (for every one of the eight files),
and by construction never raises; the olist_strategy_project loader
has no handler around `pd.read_csv`, so a file that exists but fails
to parse propagates the parser exception. -/
theorem C8_loader_parse_failure :
    (∀ src : SourceDir,
      (src.orders = CsvFile.malformed → (charts.load_datasets src).orders = none) ∧
      (src.customers = CsvFile.malformed → (charts.load_datasets src).customers = none) ∧
      (src.items = CsvFile.malformed → (charts.load_datasets src).items = none) ∧
      (src.products = CsvFile.malformed → (charts.load_datasets src).products = none) ∧
      (src.payments = CsvFile.malformed → (charts.load_datasets src).payments = none) ∧
      (src.reviews = CsvFile.malformed → (charts.load_datasets src).reviews = none) ∧
      (src.sellers = CsvFile.malformed → (charts.load_datasets src).sellers = none) ∧
      (src.geolocation = CsvFile.malformed → (charts.load_datasets src).geolocation = none)) ∧
    (∀ src : SourceDir, src.orders = CsvFile.malformed →
      isFatal (olist.load_datasets src) = true) := by
  constructor
  · intro src
    refine ⟨?_, ?_, ?_, ?_, ?_, ?_, ?_, ?_⟩ <;>
      (intro h; simp [charts.load_datasets, charts.loadOne, h])
  · intro src h
    unfold olist.load_datasets
    rw [h]
    rfl

/-- C8 counterexample: on a directory whose orders CSV exists but
fails to parse, the olist_strategy_project loader raises instead of
treating the dataset as absent, refuting the claim as stated for that
cited symbol. -/
theorem C8_cex_olist_loader_raises :
    srcC8.orders = CsvFile.malformed ∧ isFatal (olist.load_datasets srcC8) = true := by
  decide

/-- C8 witness: the amended theorem applied at a concrete directory
with a malformed payments file. -/
theorem C8_loader_witness :
    srcW8.payments = CsvFile.malformed ∧ (charts.load_datasets srcW8).payments = none :=
  ⟨rfl, ((C8_loader_parse_failure.1 srcW8).2.2.2.2.1) rfl⟩

/-! ## C9 -/

/-- C9 (amended): `charts.build_fact` is pure with respect to the
loaded datasets (it copies the Orders table before mutating, so the
post-call datasets mapping equals the input); the
olist_strategy_project `build_fact`, by contrast, mutates the Orders
table held in the datasets mapping in place: whenever it succeeds the
post-call orders table carries the newly added `month` column. -/
theorem C9_build_fact_purity :
    (∀ ds post fact, charts.build_fact ds = Except.ok (post, fact) → post = ds) ∧
    (∀ ds post fact, olist.build_fact ds = Except.ok (post, fact) →
      ∃ ot2, post.orders = some ot2 ∧ ot2.monthCol.isSome = true) := by
  constructor
  · intro ds post fact hok
    cases ho : ds.orders with
    | none => rw [charts.build_fact_err ds ho] at hok; simp at hok
    | some ot =>
      rw [charts_build_fact_eq ds ot ho] at hok
      simp only [Except.ok.injEq, Prod.mk.injEq] at hok
      exact hok.1.symm
  · intro ds post fact hok
    cases ho : ds.orders with
    | none => rw [olist.build_fact_err_orders ds ho] at hok; simp at hok
    | some ot =>
      cases hp : ds.payments with
      | none => rw [olist.build_fact_err_payments ds ot ho hp] at hok; simp at hok
      | some ps =>
        cases htd : olist.to_datetime_col ot.rows with
        | error e => rw [olist.build_fact_err_td ds ot ps e ho hp htd] at hok; simp at hok
        | ok rows =>
          rw [olist_build_fact_eq ds ot ps rows ho hp htd] at hok
          simp only [Except.ok.injEq, Prod.mk.injEq] at hok
          refine ⟨⟨rows, some (rows.map (fun r => r.order_purchase_timestamp.monthVal))⟩,
            ?_, rfl⟩
          rw [← hok.1]

/-- C9 counterexample: at a concrete input, the datasets mapping
observed after the olist_strategy_project `build_fact` differs from
the input mapping (the orders table was coerced and gained a `month`
column in place), refuting the claim that no loaded table is ever
mutated. -/
theorem C9_cex_olist_mutates :
    (olist.build_fact dsC9).toOption.map Prod.fst ≠ some dsC9 := by
  decide

/-- C9 witness: the purity direction of the theorem applied at a
concrete input. -/
theorem C9_build_fact_purity_witness :
    charts.build_fact dsW9 = Except.ok (dsW9, factW9) ∧ dsW9 = dsW9 :=
  ⟨rfl, C9_build_fact_purity.1 dsW9 dsW9 factW9 rfl⟩

/-! ## C10 -/

/-- C10: for every customer row kept after dropping null months, the
computed cohort index is non-negative (the cohort month is the
minimum month over that customer's orders); the first pivot column —
the normalization denominator — exists and is the index-0 column; and
every cohort has at least one distinct customer at index 0, so that
denominator is strictly positive. -/
theorem C10_cohort_index_invariants (fact : List FactRow)
    (h : ∃ r ∈ fact, r.month.isSome = true) :
    (∀ r ∈ charts.cohort_recs fact, 0 ≤ r.2.2) ∧
    (charts.cohort_columns fact).head? = some 0 ∧
    ∀ cm ∈ charts.cohort_months fact,
      0 < charts.cohort_entry (charts.cohort_recs fact) cm 0 := by
  refine ⟨charts.cohort_recs_idx_nonneg fact, ?_, ?_⟩
  · rcases charts.cohort_columns_head fact (charts.cohort_recs_ne_nil fact h) with ⟨rest, hc⟩
    rw [hc]
    rfl
  · intro cm hcm
    rcases charts.cohort_months_mem_inv fact cm hcm with ⟨r, hr, hre⟩
    have hp := charts.cohort_entry_pos fact r hr
    rw [hre] at hp
    exact hp

/-- C10 witness: the theorem applied at a concrete two-row fact
table (one customer active in two months). -/
theorem C10_cohort_index_witness :
    (∀ r ∈ charts.cohort_recs factW10, 0 ≤ r.2.2) ∧
    (charts.cohort_columns factW10).head? = some 0 ∧
    ∀ cm ∈ charts.cohort_months factW10,
      0 < charts.cohort_entry (charts.cohort_recs factW10) cm 0 :=
  C10_cohort_index_invariants factW10
    ⟨⟨"m1", "cx", Ts.dt (some 9), some 9, none, 0⟩, List.mem_cons_self _ _, rfl⟩
